import Mathlib

/-!
Shallow embedding of the request authorization and validation pipeline of the
jobly backend (src/app.js, src/routes/companies.js, src/routes/users.js) and
proofs of the specification claims about it.

Code present under src/ is transcribed directly.  Components the routes import
but whose files are not under src/ (middleware/auth.js, expressError.js,
helpers/tokens.js, the schemas/*.json documents and the external jsonschema
evaluator) are modelled from the specification; each such definition carries a
doc comment starting with "Modelled from the spec:".
-/

/-- A JavaScript error message is either a plain string or a list of strings
(the schema-violation case: `new BadRequestError(errors)` with an array). -/
inductive Msg where
  | str (s : String)
  | list (l : List String)
deriving DecidableEq, Repr

/-- JavaScript truthiness of a message value: the empty string is falsy, every
other string and every array (even an empty one) is truthy. -/
def Msg.isFalsy : Msg → Bool
  | Msg.str s => s = ""
  | Msg.list _ => false

/-- A JavaScript error object as the express error handler sees it: a message
(string or array), an optional `status` field (absent on unrecognized plain
errors), and a stack trace string. -/
structure JsError where
  message : Msg
  status : Option Nat
  stack : String
deriving DecidableEq, Repr

/-- The PipelineError taxonomy kinds. -/
inductive ErrKind where
  | badRequest
  | unauthorized
  | forbidden
  | notFound
  | serverFault
deriving DecidableEq, Repr

/-- Status code fixed for each PipelineError kind (spec section 4.5). -/
def ErrKind.statusCode : ErrKind → Nat
  | ErrKind.badRequest => 400
  | ErrKind.unauthorized => 401
  | ErrKind.forbidden => 403
  | ErrKind.notFound => 404
  | ErrKind.serverFault => 500

/-- Modelled from the spec: expressError.js is not under src/.  `BadRequestError`
is a PipelineError of kind BadRequest (status 400) carrying the given message,
which may be a list of schema-violation strings. -/
def BadRequestError (m : Msg) : JsError :=
  { message := m, status := some 400, stack := "BadRequestError" }

/-- Modelled from the spec: expressError.js is not under src/.  `UnauthorizedError`
is the PipelineError of kind Unauthorized (status 401). -/
def UnauthorizedError : JsError :=
  { message := Msg.str "Unauthorized", status := some 401, stack := "UnauthorizedError" }

/-- Modelled from the spec: expressError.js is not under src/.  `ForbiddenError`
is the PipelineError of kind Forbidden (status 403). -/
def ForbiddenError : JsError :=
  { message := Msg.str "Forbidden", status := some 403, stack := "ForbiddenError" }

/-- Modelled from the spec: expressError.js is not under src/.  `NotFoundError`
is the PipelineError of kind NotFound (status 404). -/
def NotFoundError : JsError :=
  { message := Msg.str "Not Found", status := some 404, stack := "NotFoundError" }

/-! ## JavaScript numeric coercion helpers -/

/-- A JavaScript number restricted to the integer values these routes handle,
together with the NaN value produced by failed coercions. -/
inductive JSNum where
  | num (n : Int)
  | nan
deriving DecidableEq, Repr

/-- Numeric value of a list of decimal digit characters. -/
def digitsToNat (ds : List Char) : Nat :=
  ds.foldl (fun acc c => acc * 10 + (c.toNat - 48)) 0

/-- Longest leading run of decimal digits. -/
def leadingDigits : List Char → List Char
  | [] => []
  | c :: cs => if c.isDigit then c :: leadingDigits cs else []

/-- JavaScript `parseInt(s, 10)`: skip leading whitespace, read an optional
sign, then the longest leading run of decimal digits; `none` (NaN) when that
run is empty, otherwise the signed value of the run — trailing garbage is
ignored. -/
def jsParseInt (s : String) : Option Int :=
  let cs := s.toList.dropWhile Char.isWhitespace
  let signed : Int × List Char :=
    match cs with
    | '+' :: cs2 => (1, cs2)
    | '-' :: cs2 => (-1, cs2)
    | _ => (1, cs)
  let ds := leadingDigits signed.2
  if ds.isEmpty then none else some (signed.1 * digitsToNat ds)

/-- JavaScript unary plus on a string (`+s`, the Number conversion, restricted
to the integer syntax relevant to route parameters): whitespace is trimmed;
the empty string converts to 0; an optional sign followed by digits ONLY
converts to that integer; anything else — including digits followed by
trailing garbage — is NaN. -/
def jsUnaryPlus (s : String) : JSNum :=
  let cs := ((s.toList.dropWhile Char.isWhitespace).reverse.dropWhile Char.isWhitespace).reverse
  match cs with
  | [] => JSNum.num 0
  | _ =>
    let signed : Int × List Char :=
      match cs with
      | '+' :: cs2 => (1, cs2)
      | '-' :: cs2 => (-1, cs2)
      | _ => (1, cs)
    if signed.2.isEmpty then JSNum.nan
    else if signed.2.all Char.isDigit then JSNum.num (signed.1 * digitsToNat signed.2)
    else JSNum.nan

/-- Sign prefix of a character list: the sign factor and what follows it. -/
def afterSign : List Char → Int × List Char
  | '+' :: cs2 => ((1 : Int), cs2)
  | '-' :: cs2 => ((-1 : Int), cs2)
  | cs => ((1 : Int), cs)

/-- The list after a leading 0x / 0X hex prefix, when one is present. -/
def hexTail : List Char → Option (List Char)
  | '0' :: 'x' :: rest => some rest
  | '0' :: 'X' :: rest => some rest
  | _ => none

/-- Whether a character is a hexadecimal digit. -/
def isHexDigit (c : Char) : Bool :=
  c.isDigit || ('a' ≤ c && c ≤ 'f') || ('A' ≤ c && c ≤ 'F')

/-- Longest leading run of hexadecimal digits. -/
def leadingHexDigits : List Char → List Char
  | [] => []
  | c :: cs => if isHexDigit c then c :: leadingHexDigits cs else []

/-- Numeric value of one hexadecimal digit character. -/
def hexDigitVal (c : Char) : Nat :=
  if c.isDigit then c.toNat - 48
  else if 'a' ≤ c && c ≤ 'f' then c.toNat - 87
  else c.toNat - 55

/-- Numeric value of a list of hexadecimal digit characters. -/
def hexDigitsToNat (ds : List Char) : Nat :=
  ds.foldl (fun acc c => acc * 16 + hexDigitVal c) 0

/-- JavaScript radix-free `parseInt(s)`: after whitespace and sign handling it
behaves exactly like `parseInt(s, 10)` UNLESS the remainder starts with the
hex prefix 0x / 0X, in which case the prefix is stripped and the longest run
of hexadecimal digits is read instead — NaN when that run is empty, as in
`parseInt("0x")`.  It is computed here as the radix-10 parse corrected on
hex-prefixed input; this is faithful because a hex prefix starts with the
decimal digit 0, so every string that is NaN under radix 10 (no leading
decimal digit after sign and whitespace) is NaN radix-free as well, and on a
hex-prefixed string the radix-10 value (the bare 0 of the prefix) is replaced
by the signed hex parse of what follows the prefix. -/
def jsParseIntNoRadix (s : String) : Option Int :=
  match jsParseInt s with
  | none => none
  | some n =>
      let signed := afterSign (s.toList.dropWhile Char.isWhitespace)
      match hexTail signed.2 with
      | none => some n
      | some rest =>
          let hs := leadingHexDigits rest
          if hs.isEmpty then none else some (signed.1 * hexDigitsToNat hs)

/-- A string is numeric in the plain sense of the spec ("numeric-looking
strings for range filters"): after trimming it is an optional sign followed by
at least one digit and nothing else. -/
def isNumericString (s : String) : Bool :=
  match jsUnaryPlus s with
  | JSNum.num _ => !(((s.toList.dropWhile Char.isWhitespace).reverse.dropWhile Char.isWhitespace).reverse.isEmpty)
  | JSNum.nan => false

/-! ## JSON values, payloads and schema validation -/

/-- A JSON value as carried in request payloads and responses.  `jnull` is also
what `res.json` serializes a NaN number to. -/
inductive JsVal where
  | jnull
  | jbool (b : Bool)
  | jnum (n : Int)
  | jstr (s : String)
deriving DecidableEq, Repr

/-- Serialization of a JavaScript number by `res.json` / `JSON.stringify`:
NaN has no JSON representation and becomes `null`. -/
def jsNumToJson : JSNum → JsVal
  | JSNum.num n => JsVal.jnum n
  | JSNum.nan => JsVal.jnull

/-- A request payload (request body or coerced query object): an ordered list
of field name / value pairs. -/
abbrev Payload := List (String × JsVal)

/-- Field types distinguished by the schema documents used here. -/
inductive FieldType where
  | stringT
  | numberT
  | booleanT
deriving DecidableEq, Repr

/-- Whether a JSON value matches a declared field type. -/
def typeMatches : JsVal → FieldType → Bool
  | JsVal.jstr _, FieldType.stringT => true
  | JsVal.jnum _, FieldType.numberT => true
  | JsVal.jbool _, FieldType.booleanT => true
  | _, _ => false

/-- One property rule of a schema document: a field name, its required type,
and whether the field is required to be present. -/
structure FieldRule where
  name : String
  type : FieldType
  required : Bool
deriving DecidableEq, Repr

/-- A schema document: an ordered list of property rules. -/
abbrev SchemaRule := List FieldRule

/-- Modelled from the spec: the external jsonschema rule evaluator (section 6)
is not under src/.  It receives a payload and a SchemaRule and returns the
list of violation descriptors — one human-readable string per violated rule,
in rule order, with no early termination. -/
def evaluateSchema (payload : Payload) (rule : SchemaRule) : List String :=
  rule.filterMap fun fr =>
    match payload.lookup fr.name with
    | none => if fr.required then some (fr.name ++ " is required") else none
    | some v =>
        if typeMatches v fr.type then none
        else some (fr.name ++ " is not of a type(s) expected")

/-- The result object returned by `jsonschema.validate`: a validity flag and
the list of error stack strings. -/
structure ValidatorResult where
  valid : Bool
  errors : List String
deriving DecidableEq, Repr

/-- The external `jsonschema.validate(data, schema)` call: valid iff the
evaluator reports no violations, with the full violation list attached. -/
def jsonschemaValidate (data : Payload) (schema : SchemaRule) : ValidatorResult :=
  let errs := evaluateSchema data schema
  { valid := errs.isEmpty, errors := errs }

/-- Transcribed from src/routes/companies.js lines 19-25 (the identical copy in
src/routes/users.js lines 17-23): run `jsonschema.validate`; when invalid,
throw a `BadRequestError` carrying the whole list of error stacks; otherwise
return normally. -/
def validateSchema (data : Payload) (schema : SchemaRule) : Except JsError Unit :=
  let validator := jsonschemaValidate data schema
  if !validator.valid then
    Except.error (BadRequestError (Msg.list validator.errors))
  else
    Except.ok ()

/-! ## Identity, token codec and authorization guards -/

/-- The decoded payload of a valid credential (spec section 3). -/
structure IdentityClaims where
  username : String
  isAdmin : Bool
  issuedAt : Nat
deriving DecidableEq, Repr

/-- The resolved identity attached to the request context: the verified claims
or the explicit anonymous marker. -/
inductive Identity where
  | anonymous
  | user (claims : IdentityClaims)
deriving DecidableEq, Repr

/-- Modelled from the spec: helpers/tokens.js and the jsonwebtoken library are
not under src/.  A signed token is the deterministic encoding of the claims
plus a signature computed from them and the process-wide secret; the spec
treats it as an opaque string, which this structured encoding refines. -/
structure SignedToken where
  username : String
  isAdmin : Bool
  issuedAt : Nat
  signature : Nat
deriving DecidableEq, Repr

/-- Modelled from the spec: the signature over the encoded claim fields and the
process-wide secret, standing in for the HMAC of the real library. -/
def signatureOf (secret : String) (username : String) (isAdmin : Bool) (issuedAt : Nat) : Nat :=
  (secret ++ "|" ++ username ++ "|" ++ (if isAdmin then "t" else "f") ++ "|" ++ toString issuedAt).hash.toNat

namespace TokenCodec

/-- Modelled from the spec: `sign(claims)` deterministically encodes the claims
plus issue time and signs them with the process-wide secret (section 4.1). -/
def sign (secret : String) (claims : IdentityClaims) : SignedToken :=
  { username := claims.username
    isAdmin := claims.isAdmin
    issuedAt := claims.issuedAt
    signature := signatureOf secret claims.username claims.isAdmin claims.issuedAt }

/-- Modelled from the spec: `verify(credential)` checks the signature against
the same process-wide secret and fails with Unauthorized when it does not
match; on success it yields the decoded claims (section 4.1). -/
def verify (secret : String) (tok : SignedToken) : Except JsError IdentityClaims :=
  if tok.signature = signatureOf secret tok.username tok.isAdmin tok.issuedAt then
    Except.ok { username := tok.username, isAdmin := tok.isAdmin, issuedAt := tok.issuedAt }
  else
    Except.error UnauthorizedError

end TokenCodec

/-- Modelled from the spec: middleware/auth.js is not under src/.
`authenticateJWT` looks for a credential; when absent the identity resolves to
anonymous and processing proceeds; when present it is verified, a verification
failure again degrading to anonymous rather than aborting (section 4.2).  The
returned error slot is the argument a middleware would pass to `next`; it is
always empty: absence or invalidity of a credential is never itself an error. -/
def authenticateJWT (secret : String) (credential : Option SignedToken) : Identity × Option JsError :=
  match credential with
  | none => (Identity.anonymous, none)
  | some tok =>
      match TokenCodec.verify secret tok with
      | Except.ok claims => (Identity.user claims, none)
      | Except.error _ => (Identity.anonymous, none)

/-- Modelled from the spec: middleware/auth.js is not under src/.
`ensureAdmin` passes iff the identity is not anonymous and `isAdmin` is true;
an anonymous identity fails Unauthorized, an authenticated non-admin fails
Forbidden (section 4.3, `requireAdmin`). -/
def ensureAdmin (ident : Identity) : Except JsError Unit :=
  match ident with
  | Identity.anonymous => Except.error UnauthorizedError
  | Identity.user c => if c.isAdmin then Except.ok () else Except.error ForbiddenError

/-- Modelled from the spec: middleware/auth.js is not under src/.
`ensureCorrectUserOrAdmin` passes iff the identity is not anonymous and is
either an admin or the user named by the route username parameter; failure
modes as for `ensureAdmin` (section 4.3, `requireSelfOrAdmin`). -/
def ensureCorrectUserOrAdmin (ident : Identity) (routeUsername : String) : Except JsError Unit :=
  match ident with
  | Identity.anonymous => Except.error UnauthorizedError
  | Identity.user c =>
      if c.isAdmin || c.username = routeUsername then Except.ok ()
      else Except.error ForbiddenError

/-! ## The terminal error handler (src/app.js lines 52-66) -/

/-- What the generic error handler produces: an optional log line (the stack is
written to the console outside test environments), the HTTP status set with
`res.status`, and the JSON body `{ error: { message, status } }` — the body
holds exactly these two fields. -/
structure HandledError where
  logged : Option String
  httpStatus : Nat
  bodyMessage : Msg
  bodyStatus : Nat
deriving DecidableEq, Repr

/-- Transcribed from src/app.js lines 52-66: log `err.stack` when NODE_ENV is
not "test"; take `err.status || 500` and `err.message || "Internal Server
Error"` (JavaScript truthiness: a status of 0 or a missing status falls back
to 500, an empty-string message falls back to the default, while an array
message — even an empty array — is truthy and kept as is); respond with
status and the body `{ error: { message, status } }`. -/
def errorHandler (nodeEnv : String) (err : JsError) : HandledError :=
  let logged := if nodeEnv ≠ "test" then some err.stack else none
  let status := match err.status with
    | none => 500
    | some 0 => 500
    | some s => s
  let message := if err.message.isFalsy then Msg.str "Internal Server Error" else err.message
  { logged := logged, httpStatus := status, bodyMessage := message, bodyStatus := status }

/-! ## Route pipelines (src/routes/companies.js, src/routes/users.js) -/

/-- The coerced filter object built by GET /companies before validation. -/
structure CompanyFilters where
  nameLike : Option String
  minEmployees : Option Int
  maxEmployees : Option Int
deriving DecidableEq, Repr

/-- A call into the persistence layer.  The route handlers below record every
model call they make; the persistence layer itself is external to the core. -/
inductive DbCall where
  | companyCreate (body : Payload)
  | companyFindAll (filters : CompanyFilters)
  | companyGet (handle : String)
  | companyUpdate (handle : String) (body : Payload)
  | companyRemove (handle : String)
  | userRegister (body : Payload)
  | userUpdate (username : String) (body : Payload)
  | userRemove (username : String)
  | userApplyToJob (username : String) (jobId : JSNum)
deriving DecidableEq, Repr

/-- The outcome of one request through a route: a success response with an
HTTP status and a JSON body, or a failure forwarded to the error handler via
`next(err)`. -/
inductive RouteOutcome where
  | success (status : Nat) (body : List (String × JsVal))
  | failure (err : JsError)
deriving DecidableEq, Repr

/-- The express dispatch of a guard middleware followed by the handler: when
the guard calls `next(err)` the handler never runs (so it makes no persistence
call), otherwise the handler result stands. -/
def runGuarded (guard : Except JsError Unit) (handler : List DbCall × RouteOutcome) :
    List DbCall × RouteOutcome :=
  match guard with
  | Except.error e => ([], RouteOutcome.failure e)
  | Except.ok () => handler

/-- Modelled from the spec: schemas/companyNew.json is not under src/.  The
route doc (src/routes/companies.js lines 27-33) says a new company is
`{ handle, name, description, numEmployees, logoUrl }`; handle and name are the
identifying required fields, numEmployees is numeric. -/
def companyNewSchema : SchemaRule :=
  [ { name := "handle", type := FieldType.stringT, required := true }
  , { name := "name", type := FieldType.stringT, required := true }
  , { name := "description", type := FieldType.stringT, required := false }
  , { name := "numEmployees", type := FieldType.numberT, required := false }
  , { name := "logoUrl", type := FieldType.stringT, required := false } ]

/-- Modelled from the spec: schemas/companyUpdate.json is not under src/.  The
route doc (src/routes/companies.js lines 98-103) says updatable fields are
`{ name, description, numEmployees, logoUrl }`, all optional. -/
def companyUpdateSchema : SchemaRule :=
  [ { name := "name", type := FieldType.stringT, required := false }
  , { name := "description", type := FieldType.stringT, required := false }
  , { name := "numEmployees", type := FieldType.numberT, required := false }
  , { name := "logoUrl", type := FieldType.stringT, required := false } ]

/-- Modelled from the spec: schemas/companySearch.json is not under src/.  The
route doc (src/routes/companies.js lines 45-53) says the filters are
minEmployees, maxEmployees (numbers) and nameLike (string), all optional. -/
def companySearchSchema : SchemaRule :=
  [ { name := "minEmployees", type := FieldType.numberT, required := false }
  , { name := "maxEmployees", type := FieldType.numberT, required := false }
  , { name := "nameLike", type := FieldType.stringT, required := false } ]

/-- Modelled from the spec: schemas/userNew.json is not under src/.  The route
doc (src/routes/users.js lines 25-35) says a new user carries username,
firstName, lastName, email (and a password), with an optional isAdmin flag. -/
def userNewSchema : SchemaRule :=
  [ { name := "username", type := FieldType.stringT, required := true }
  , { name := "firstName", type := FieldType.stringT, required := true }
  , { name := "lastName", type := FieldType.stringT, required := true }
  , { name := "password", type := FieldType.stringT, required := true }
  , { name := "email", type := FieldType.stringT, required := true }
  , { name := "isAdmin", type := FieldType.booleanT, required := false } ]

/-- Modelled from the spec: schemas/userUpdate.json is not under src/.  The
route doc (src/routes/users.js lines 78-86) says updatable fields are
`{ firstName, lastName, password, email }`, all optional. -/
def userUpdateSchema : SchemaRule :=
  [ { name := "firstName", type := FieldType.stringT, required := false }
  , { name := "lastName", type := FieldType.stringT, required := false }
  , { name := "password", type := FieldType.stringT, required := false }
  , { name := "email", type := FieldType.stringT, required := false } ]

/-- Transcribed from src/routes/companies.js lines 35-43, POST /companies:
the `ensureAdmin` guard runs first; the handler validates the body against
companyNewSchema and only then calls `Company.create`, answering 201 with the
created company (the external model echoes the validated data). -/
def companiesPost (ident : Identity) (body : Payload) : List DbCall × RouteOutcome :=
  runGuarded (ensureAdmin ident) <|
    match validateSchema body companyNewSchema with
    | Except.error e => ([], RouteOutcome.failure e)
    | Except.ok () => ([DbCall.companyCreate body], RouteOutcome.success 201 body)

/-- The raw query string fields GET /companies destructures from `req.query`;
each is the undecoded string when the parameter appears in the URL. -/
structure CompanyQuery where
  minEmployees : Option String
  maxEmployees : Option String
  nameLike : Option String
deriving DecidableEq, Repr

/-- The coercion `x ? parseInt(x, 10) : undefined` applied to an optional query
string: an absent or empty (falsy) string gives `undefined`; otherwise the
parseInt value.  Unreachable for strings whose parseInt is NaN — the route has
already rejected those — so `none` stands for `undefined` here. -/
def coerceEmployeesFilter (s : Option String) : Option Int :=
  match s with
  | none => none
  | some v => if v = "" then none else jsParseInt v

/-- The payload form of the coerced filters handed to `validateSchema`
(`undefined`-valued fields are absent for the schema evaluator). -/
def filtersPayload (f : CompanyFilters) : Payload :=
  (match f.nameLike with
   | some s => [("nameLike", JsVal.jstr s)]
   | none => []) ++
  (match f.minEmployees with
   | some n => [("minEmployees", JsVal.jnum n)]
   | none => []) ++
  (match f.maxEmployees with
   | some n => [("maxEmployees", JsVal.jnum n)]
   | none => [])

/-- Transcribed from src/routes/companies.js lines 55-79, GET /companies:
no guard; when minEmployees is present but the radix-free `parseInt` of it
(lines 59 and 63 call `parseInt` with no radix argument) is NaN, fail
BadRequest naming minEmployees; likewise for maxEmployees; otherwise build the
coerced filter object — lines 69-70 coerce with the explicit radix-10
`parseInt(v, 10)` — validate it against companySearchSchema and call
`Company.findAll` on it. -/
def companiesGet (q : CompanyQuery) : List DbCall × RouteOutcome :=
  if (match q.minEmployees with | some s => (jsParseIntNoRadix s).isNone | none => false) then
    ([], RouteOutcome.failure (BadRequestError (Msg.str "minEmployees must be a number")))
  else if (match q.maxEmployees with | some s => (jsParseIntNoRadix s).isNone | none => false) then
    ([], RouteOutcome.failure (BadRequestError (Msg.str "maxEmployees must be a number")))
  else
    let filters : CompanyFilters :=
      { nameLike := q.nameLike
        minEmployees := coerceEmployeesFilter q.minEmployees
        maxEmployees := coerceEmployeesFilter q.maxEmployees }
    match validateSchema (filtersPayload filters) companySearchSchema with
    | Except.error e => ([], RouteOutcome.failure e)
    | Except.ok () => ([DbCall.companyFindAll filters], RouteOutcome.success 200 [])

/-- Transcribed from src/routes/companies.js lines 105-113, PATCH
/companies/:handle: the `ensureAdmin` guard runs first; the handler validates
the body against companyUpdateSchema and only then calls `Company.update`. -/
def companiesPatch (ident : Identity) (handle : String) (body : Payload) :
    List DbCall × RouteOutcome :=
  runGuarded (ensureAdmin ident) <|
    match validateSchema body companyUpdateSchema with
    | Except.error e => ([], RouteOutcome.failure e)
    | Except.ok () => ([DbCall.companyUpdate handle body], RouteOutcome.success 200 body)

/-- Transcribed from src/routes/companies.js lines 122-129, DELETE
/companies/:handle: the `ensureAdmin` guard runs first; the handler calls
`Company.remove` and answers `{ deleted: handle }`. -/
def companiesDelete (ident : Identity) (handle : String) : List DbCall × RouteOutcome :=
  runGuarded (ensureAdmin ident)
    ([DbCall.companyRemove handle], RouteOutcome.success 200 [("deleted", JsVal.jstr handle)])

/-- Transcribed from src/routes/users.js lines 36-45, POST /users: the
`ensureAdmin` guard runs first; the handler validates the body against
userNewSchema and only then calls `User.register`, answering 201. -/
def usersPost (ident : Identity) (body : Payload) : List DbCall × RouteOutcome :=
  runGuarded (ensureAdmin ident) <|
    match validateSchema body userNewSchema with
    | Except.error e => ([], RouteOutcome.failure e)
    | Except.ok () => ([DbCall.userRegister body], RouteOutcome.success 201 body)

/-- Transcribed from src/routes/users.js lines 87-95, PATCH /users/:username:
the `ensureCorrectUserOrAdmin` guard runs first; the handler validates the
body against userUpdateSchema and only then calls `User.update`. -/
def usersPatch (ident : Identity) (username : String) (body : Payload) :
    List DbCall × RouteOutcome :=
  runGuarded (ensureCorrectUserOrAdmin ident username) <|
    match validateSchema body userUpdateSchema with
    | Except.error e => ([], RouteOutcome.failure e)
    | Except.ok () => ([DbCall.userUpdate username body], RouteOutcome.success 200 body)

/-- Transcribed from src/routes/users.js lines 101-108, DELETE
/users/:username: the `ensureCorrectUserOrAdmin` guard runs first; the handler
calls `User.remove` and answers `{ deleted: username }`. -/
def usersDelete (ident : Identity) (username : String) : List DbCall × RouteOutcome :=
  runGuarded (ensureCorrectUserOrAdmin ident username)
    ([DbCall.userRemove username], RouteOutcome.success 200 [("deleted", JsVal.jstr username)])

/-- Transcribed from src/routes/users.js lines 116-124, POST
/users/:username/jobs/:id: the `ensureCorrectUserOrAdmin` guard runs first;
the handler coerces the id route parameter with unary plus — with no
numericness validation — passes the result to `User.applyToJob`, and answers
`{ applied: jobId }`, `res.json` serializing a NaN jobId as null. -/
def usersApplyJob (ident : Identity) (username : String) (idParam : String) :
    List DbCall × RouteOutcome :=
  runGuarded (ensureCorrectUserOrAdmin ident username) <|
    let jobId := jsUnaryPlus idParam
    ([DbCall.userApplyToJob username jobId],
     RouteOutcome.success 200 [("applied", jsNumToJson jobId)])

/-! ## The application middleware chain (src/app.js) -/

/-- One element of the express middleware chain registered in src/app.js, in
the order the `app.use` / `app.get` calls appear. -/
inductive Stage where
  | helmetStage
  | jsonParser
  | morganLogger
  | authJWT
  | corsStage
  | routeMount (path : String)
  | rootRoute
  | notFound404
  | genericErrorHandler
deriving DecidableEq, Repr

/-- Transcribed from src/app.js lines 21-66: the middleware and route mounts in
registration order.  Express dispatches a request through this list in order,
so every stage listed before a route mount runs before any handler of that
mount. -/
def appMiddlewareChain : List Stage :=
  [ Stage.helmetStage
  , Stage.jsonParser
  , Stage.morganLogger
  , Stage.authJWT
  , Stage.corsStage
  , Stage.routeMount "/auth"
  , Stage.routeMount "/companies"
  , Stage.routeMount "/users"
  , Stage.routeMount "/jobs"
  , Stage.rootRoute
  , Stage.notFound404
  , Stage.genericErrorHandler ]

/-- Position of the first occurrence of a stage in the registered chain. -/
def stagePos (s : Stage) : Nat := (appMiddlewareChain.indexOf s)

/-! ## Helper lemmas -/

/-- A guarded route makes a persistence call only when its guard passed. -/
theorem runGuarded_calls_ne_nil {g : Except JsError Unit} {h : List DbCall × RouteOutcome}
    (hne : (runGuarded g h).1 ≠ []) : g = Except.ok () ∧ h.1 ≠ [] := by
  cases g with
  | error e => simp [runGuarded] at hne
  | ok u => cases u; exact ⟨rfl, hne⟩

/-- With no violations, `validateSchema` returns normally. -/
theorem validateSchema_ok_of_no_violations {data : Payload} {schema : SchemaRule}
    (h : evaluateSchema data schema = []) : validateSchema data schema = Except.ok () := by
  simp [validateSchema, jsonschemaValidate, h]

/-- With at least one violation, `validateSchema` throws a BadRequestError
carrying the whole violation list. -/
theorem validateSchema_error_of_violations {data : Payload} {schema : SchemaRule}
    (h : evaluateSchema data schema ≠ []) :
    validateSchema data schema =
      Except.error (BadRequestError (Msg.list (evaluateSchema data schema))) := by
  simp [validateSchema, jsonschemaValidate, List.isEmpty_iff, h]

/-! ## Claim theorems -/

/-- C1: on every mutating route (POST/PATCH/DELETE on companies and users), a
persistence call happens only when the route's declared guard returned pass
and, where the route validates a schema, `validateSchema` returned normally:
the guard middleware runs before the handler body and a thrown validation
error prevents the model call, so no default-allow path reaches persistence. -/
theorem mutating_routes_fail_closed (ident : Identity) (body : Payload)
    (handle username idParam : String) :
    ((companiesPost ident body).1 ≠ [] →
      ensureAdmin ident = Except.ok () ∧ validateSchema body companyNewSchema = Except.ok ()) ∧
    ((companiesPatch ident handle body).1 ≠ [] →
      ensureAdmin ident = Except.ok () ∧ validateSchema body companyUpdateSchema = Except.ok ()) ∧
    ((companiesDelete ident handle).1 ≠ [] → ensureAdmin ident = Except.ok ()) ∧
    ((usersPost ident body).1 ≠ [] →
      ensureAdmin ident = Except.ok () ∧ validateSchema body userNewSchema = Except.ok ()) ∧
    ((usersPatch ident username body).1 ≠ [] →
      ensureCorrectUserOrAdmin ident username = Except.ok () ∧
        validateSchema body userUpdateSchema = Except.ok ()) ∧
    ((usersDelete ident username).1 ≠ [] →
      ensureCorrectUserOrAdmin ident username = Except.ok ()) ∧
    ((usersApplyJob ident username idParam).1 ≠ [] →
      ensureCorrectUserOrAdmin ident username = Except.ok ()) := by
  refine ⟨?_, ?_, ?_, ?_, ?_, ?_, ?_⟩
  · intro hne
    obtain ⟨hg, hh⟩ := runGuarded_calls_ne_nil hne
    refine ⟨hg, ?_⟩
    cases hv : validateSchema body companyNewSchema with
    | error e => simp [companiesPost, runGuarded, hg, hv] at hne
    | ok u => cases u; rfl
  · intro hne
    obtain ⟨hg, hh⟩ := runGuarded_calls_ne_nil hne
    refine ⟨hg, ?_⟩
    cases hv : validateSchema body companyUpdateSchema with
    | error e => simp [companiesPatch, runGuarded, hg, hv] at hne
    | ok u => cases u; rfl
  · intro hne
    exact (runGuarded_calls_ne_nil hne).1
  · intro hne
    obtain ⟨hg, hh⟩ := runGuarded_calls_ne_nil hne
    refine ⟨hg, ?_⟩
    cases hv : validateSchema body userNewSchema with
    | error e => simp [usersPost, runGuarded, hg, hv] at hne
    | ok u => cases u; rfl
  · intro hne
    obtain ⟨hg, hh⟩ := runGuarded_calls_ne_nil hne
    refine ⟨hg, ?_⟩
    cases hv : validateSchema body userUpdateSchema with
    | error e => simp [usersPatch, runGuarded, hg, hv] at hne
    | ok u => cases u; rfl
  · intro hne
    exact (runGuarded_calls_ne_nil hne).1
  · intro hne
    exact (runGuarded_calls_ne_nil hne).1

/-- C1 witness: at a concrete admin identity and a valid company body, POST
/companies does call persistence, and the theorem yields that the guard and
the validation both passed there. -/
theorem mutating_routes_fail_closed_witness :
    ensureAdmin (Identity.user { username := "ann", isAdmin := true, issuedAt := 0 }) =
        Except.ok () ∧
    validateSchema [("handle", JsVal.jstr "acme"), ("name", JsVal.jstr "Acme")]
        companyNewSchema = Except.ok () :=
  (mutating_routes_fail_closed
    (Identity.user { username := "ann", isAdmin := true, issuedAt := 0 })
    [("handle", JsVal.jstr "acme"), ("name", JsVal.jstr "Acme")]
    "acme" "ann" "7").1 (by decide)

/-- C2: `validateSchema` collects every violation the evaluator reports into
one ordered list; with no violations it returns normally, with at least one it
fails BadRequest carrying the full list; a payload violating two independent
fields of companyNewSchema (a mistyped handle and a missing name) yields
exactly the two messages, in schema order. -/
theorem validateSchema_collects_all (data : Payload) (schema : SchemaRule) :
    (evaluateSchema data schema = [] → validateSchema data schema = Except.ok ()) ∧
    (evaluateSchema data schema ≠ [] →
      validateSchema data schema =
        Except.error (BadRequestError (Msg.list (evaluateSchema data schema)))) ∧
    validateSchema [("handle", JsVal.jnum 5)] companyNewSchema =
      Except.error (BadRequestError (Msg.list
        ["handle is not of a type(s) expected", "name is required"])) := by
  refine ⟨validateSchema_ok_of_no_violations, validateSchema_error_of_violations, by rfl⟩

/-- C2 witness: at the empty payload and companyNewSchema there are violations,
and the theorem yields the BadRequestError carrying the full list. -/
theorem validateSchema_collects_all_witness :
    evaluateSchema ([] : Payload) companyNewSchema ≠ [] ∧
    validateSchema ([] : Payload) companyNewSchema =
      Except.error (BadRequestError (Msg.list (evaluateSchema ([] : Payload) companyNewSchema))) :=
  ⟨by decide, (validateSchema_collects_all ([] : Payload) companyNewSchema).2.1 (by decide)⟩

/-- C3 counterexample: "12abc" is not a numeric string, yet GET /companies with
minEmployees=12abc does not fail — the route calls Company.findAll with the
silently coerced value 12, refuting the claim that every request with a
non-numeric minEmployees fails BadRequest without reaching the handler. -/
theorem companiesGet_nonNumeric_counterexample :
    isNumericString "12abc" = false ∧
    (companiesGet { minEmployees := some "12abc", maxEmployees := none, nameLike := none }).1 =
      [DbCall.companyFindAll { nameLike := none, minEmployees := some 12, maxEmployees := none }] := by
  constructor
  · decide
  · rfl

/-- C3 amended: on GET /companies, when minEmployees (respectively
maxEmployees) is present and `parseInt` of it is NaN — no parseable integer
prefix — the request fails BadRequest with a message naming that field, with
no Company.findAll call and with a result independent of the schema evaluator
(the other query fields are arbitrary). -/
theorem companiesGet_rejects_unparseable (s : String) (mx nl : Option String)
    (h : jsParseInt s = none) :
    companiesGet { minEmployees := some s, maxEmployees := mx, nameLike := nl } =
      ([], RouteOutcome.failure (BadRequestError (Msg.str "minEmployees must be a number"))) ∧
    companiesGet { minEmployees := none, maxEmployees := some s, nameLike := nl } =
      ([], RouteOutcome.failure (BadRequestError (Msg.str "maxEmployees must be a number"))) := by
  have hg : jsParseIntNoRadix s = none := by
    simp [jsParseIntNoRadix, h]
  constructor
  · simp [companiesGet, hg]
  · simp [companiesGet, hg]

/-- C3 witness: "abc" has no parseable integer prefix and is rejected with the
field-naming BadRequest on both filter fields. -/
theorem companiesGet_rejects_unparseable_witness :
    companiesGet { minEmployees := some "abc", maxEmployees := none, nameLike := none } =
      ([], RouteOutcome.failure (BadRequestError (Msg.str "minEmployees must be a number"))) ∧
    companiesGet { minEmployees := none, maxEmployees := some "abc", nameLike := none } =
      ([], RouteOutcome.failure (BadRequestError (Msg.str "maxEmployees must be a number"))) :=
  companiesGet_rejects_unparseable "abc" none none (by decide)

/-- C4: `ensureAdmin` passes exactly for an authenticated admin identity; an
anonymous identity fails with UnauthorizedError, and an authenticated
non-admin fails with ForbiddenError, which is a different error from
UnauthorizedError (status 403, never 401). -/
theorem ensureAdmin_passes_iff_admin (ident : Identity) :
    (ensureAdmin ident = Except.ok () ↔
      ∃ c, ident = Identity.user c ∧ c.isAdmin = true) ∧
    (ident = Identity.anonymous → ensureAdmin ident = Except.error UnauthorizedError) ∧
    (∀ c, ident = Identity.user c → c.isAdmin = false →
      ensureAdmin ident = Except.error ForbiddenError) ∧
    ForbiddenError.status = some (ErrKind.forbidden.statusCode) ∧
    UnauthorizedError.status = some (ErrKind.unauthorized.statusCode) ∧
    ForbiddenError ≠ UnauthorizedError := by
  refine ⟨?_, ?_, ?_, by decide, by decide, by decide⟩
  · cases ident with
    | anonymous => simp [ensureAdmin]
    | user c =>
        by_cases hA : c.isAdmin
        · simp [ensureAdmin, hA]
        · simp [ensureAdmin, hA]
  · intro hI; subst hI; rfl
  · intro c hI hA
    subst hI
    simp [ensureAdmin, hA]

/-- C4 witness: the authenticated non-admin "bob" fails with ForbiddenError,
and ForbiddenError is not UnauthorizedError. -/
theorem ensureAdmin_passes_iff_admin_witness :
    ensureAdmin (Identity.user { username := "bob", isAdmin := false, issuedAt := 3 }) =
      Except.error ForbiddenError ∧ ForbiddenError ≠ UnauthorizedError :=
  ⟨(ensureAdmin_passes_iff_admin
      (Identity.user { username := "bob", isAdmin := false, issuedAt := 3 })).2.2.1
      { username := "bob", isAdmin := false, issuedAt := 3 } rfl rfl,
   (ensureAdmin_passes_iff_admin
      (Identity.user { username := "bob", isAdmin := false, issuedAt := 3 })).2.2.2.2.2⟩

/-- C5: for any failure carrying a recognized PipelineError kind's status, the
terminal handler answers with that status both as the HTTP status and inside
the body — whose shape is exactly { error: { message, status } }, the two
fields of `HandledError` — and a list-valued message is preserved as the very
same list, never flattened into one string. -/
theorem errorHandler_recognized_shape (env : String) (err : JsError) (k : ErrKind)
    (h : err.status = some k.statusCode) :
    (errorHandler env err).httpStatus = k.statusCode ∧
    (errorHandler env err).bodyStatus = k.statusCode ∧
    (∀ l, err.message = Msg.list l → (errorHandler env err).bodyMessage = Msg.list l) := by
  refine ⟨?_, ?_, ?_⟩
  · cases k <;> simp [errorHandler, h, ErrKind.statusCode]
  · cases k <;> simp [errorHandler, h, ErrKind.statusCode]
  · intro l hl
    simp [errorHandler, hl, Msg.isFalsy]

/-- C5 witness: a BadRequestError carrying a two-message list comes back with
HTTP status 400, body status 400 and the untouched two-message list. -/
theorem errorHandler_recognized_shape_witness :
    (errorHandler "production" (BadRequestError (Msg.list ["a", "b"]))).httpStatus = 400 ∧
    (errorHandler "production" (BadRequestError (Msg.list ["a", "b"]))).bodyStatus = 400 ∧
    (errorHandler "production" (BadRequestError (Msg.list ["a", "b"]))).bodyMessage =
      Msg.list ["a", "b"] := by
  have h := errorHandler_recognized_shape "production"
    (BadRequestError (Msg.list ["a", "b"])) ErrKind.badRequest rfl
  exact ⟨h.1, h.2.1, h.2.2 ["a", "b"] rfl⟩

/-- C6: a failure with no recognized status field is answered as a
ServerFault: HTTP status 500 in the response and the body; the response body
does not depend on the error's stack (replacing the stack leaves the whole
response unchanged), and the stack is surfaced in the log exactly when the
environment is not "test". -/
theorem errorHandler_unrecognized_serverFault (env : String) (err : JsError)
    (h : err.status = none) :
    (errorHandler env err).httpStatus = 500 ∧
    (errorHandler env err).bodyStatus = ErrKind.serverFault.statusCode ∧
    (∀ s2 : String,
      ((errorHandler env { err with stack := s2 }).httpStatus,
       (errorHandler env { err with stack := s2 }).bodyMessage,
       (errorHandler env { err with stack := s2 }).bodyStatus) =
      ((errorHandler env err).httpStatus, (errorHandler env err).bodyMessage,
       (errorHandler env err).bodyStatus)) ∧
    (env ≠ "test" → (errorHandler env err).logged = some err.stack) := by
  refine ⟨?_, ?_, ?_, ?_⟩
  · simp [errorHandler, h]
  · simp [errorHandler, h, ErrKind.statusCode]
  · intro s2; simp [errorHandler]
  · intro hEnv; simp [errorHandler, hEnv]

/-- C6 witness: a bare error (no status) in a production environment yields a
500 response whose body ignores the stack while the log carries it. -/
theorem errorHandler_unrecognized_serverFault_witness :
    (errorHandler "production"
        { message := Msg.str "boom", status := none, stack := "trace" }).httpStatus = 500 ∧
    (errorHandler "production"
        { message := Msg.str "boom", status := none, stack := "trace" }).logged =
      some "trace" := by
  have h := errorHandler_unrecognized_serverFault "production"
    { message := Msg.str "boom", status := none, stack := "trace" } rfl
  exact ⟨h.1, h.2.2.2 (by decide)⟩

/-- C7: `authenticateJWT` is registered in the app chain strictly before every
route mount and the root route — so it runs on every request, including
routes requiring no authentication — and with no credential present it
resolves the identity to anonymous and proceeds; indeed it never passes an
error to `next` for any credential value. -/
theorem authenticateJWT_global_and_anonymous (secret : String) :
    stagePos Stage.authJWT < stagePos (Stage.routeMount "/auth") ∧
    stagePos Stage.authJWT < stagePos (Stage.routeMount "/companies") ∧
    stagePos Stage.authJWT < stagePos (Stage.routeMount "/users") ∧
    stagePos Stage.authJWT < stagePos (Stage.routeMount "/jobs") ∧
    stagePos Stage.authJWT < stagePos Stage.rootRoute ∧
    authenticateJWT secret none = (Identity.anonymous, none) ∧
    (∀ cred, (authenticateJWT secret cred).2 = none) := by
  refine ⟨by decide, by decide, by decide, by decide, by decide, rfl, ?_⟩
  intro cred
  cases cred with
  | none => rfl
  | some tok =>
      cases hv : TokenCodec.verify secret tok with
      | ok c => simp [authenticateJWT, hv]
      | error e => simp [authenticateJWT, hv]

/-- C7 witness: with a concrete secret and no credential, extraction resolves
to the anonymous identity with no error. -/
theorem authenticateJWT_global_and_anonymous_witness :
    authenticateJWT "secret-key" none = (Identity.anonymous, none) :=
  (authenticateJWT_global_and_anonymous "secret-key").2.2.2.2.2.1

/-- C8: round-trip law of the token codec: verifying a token signed from any
claims with the same process-wide secret reproduces exactly those claims. -/
theorem tokenCodec_roundTrip (secret : String) (claims : IdentityClaims) :
    TokenCodec.verify secret (TokenCodec.sign secret claims) = Except.ok claims := by
  simp [TokenCodec.sign, TokenCodec.verify]

/-- C8 witness: the round trip at a concrete secret and concrete claims. -/
theorem tokenCodec_roundTrip_witness :
    TokenCodec.verify "k1" (TokenCodec.sign "k1"
        { username := "alice", isAdmin := true, issuedAt := 5 }) =
      Except.ok { username := "alice", isAdmin := true, issuedAt := 5 } :=
  tokenCodec_roundTrip "k1" { username := "alice", isAdmin := true, issuedAt := 5 }

/-- C9: on POST /users/:username/jobs/:id with the guard passing and a
non-numeric id (unary plus yields NaN), the handler raises no BadRequest: it
passes NaN to User.applyToJob and answers 200 with { applied: NaN }, which
`res.json` serializes as null. -/
theorem usersApplyJob_nan_passthrough (ident : Identity) (username idParam : String)
    (hg : ensureCorrectUserOrAdmin ident username = Except.ok ())
    (hn : jsUnaryPlus idParam = JSNum.nan) :
    usersApplyJob ident username idParam =
      ([DbCall.userApplyToJob username JSNum.nan],
       RouteOutcome.success 200 [("applied", JsVal.jnull)]) := by
  simp [usersApplyJob, runGuarded, hg, hn, jsNumToJson]

/-- C9 witness: the admin "ann" applying "bob" to job id "abc": NaN reaches
persistence and the response carries applied: null. -/
theorem usersApplyJob_nan_passthrough_witness :
    usersApplyJob (Identity.user { username := "ann", isAdmin := true, issuedAt := 0 })
        "bob" "abc" =
      ([DbCall.userApplyToJob "bob" JSNum.nan],
       RouteOutcome.success 200 [("applied", JsVal.jnull)]) :=
  usersApplyJob_nan_passthrough
    (Identity.user { username := "ann", isAdmin := true, issuedAt := 0 })
    "bob" "abc" (by rfl) (by decide)

/-- A minEmployees string accepted by the radix-free gate passes to schema
validation and on to Company.findAll, which receives the RADIX-10 parse of
the string (that is what lines 69-70 compute). -/
theorem companiesGet_min_parses {s : String} {n m : Int}
    (hg : jsParseIntNoRadix s = some n) (h : jsParseInt s = some m) :
    companiesGet { minEmployees := some s, maxEmployees := none, nameLike := none } =
      ([DbCall.companyFindAll { nameLike := none, minEmployees := some m, maxEmployees := none }],
       RouteOutcome.success 200 []) := by
  have hs : s ≠ "" := by
    intro hs
    rw [hs] at h
    have hnone : jsParseInt "" = none := by decide
    rw [hnone] at h
    exact Option.noConfusion h
  have hev : evaluateSchema [("minEmployees", JsVal.jnum m)] companySearchSchema = [] := rfl
  have hval := validateSchema_ok_of_no_violations hev
  simp [companiesGet, hg, h, coerceEmployeesFilter, hs, filtersPayload, hval]

/-- C10 counterexample: "0x" has a parseable integer prefix — its leading
character parses as the integer 0, `parseInt("0x", 10) = 0` — yet GET
/companies with minEmployees=0x does NOT pass the gate: the gate's radix-free
`parseInt("0x")` strips the hex prefix, finds no hex digits and yields NaN,
so the request fails the minEmployees BadRequest, refuting the claim that
only values with no parseable integer prefix fail. -/
theorem companiesGet_hexPrefix_counterexample :
    jsParseInt "0x" = some 0 ∧
    jsParseIntNoRadix "0x" = none ∧
    companiesGet { minEmployees := some "0x", maxEmployees := none, nameLike := none } =
      ([], RouteOutcome.failure (BadRequestError (Msg.str "minEmployees must be a number"))) := by
  refine ⟨by decide, by decide, by rfl⟩

/-- C10 amended: the coercion gate on GET /companies accepts exactly the
minEmployees values on which the radix-free `parseInt` succeeds: "12abc"
passes `isNaN(parseInt(...))` and is silently coerced (by the radix-10
parse of the filter build) to its decimal prefix 12, which Company.findAll
receives, although it is not a numeric string; and with the other filters
absent, the request fails the minEmployees BadRequest exactly when the
radix-free parseInt yields NaN — which includes hex-prefixed values without
hex digits, such as "0x", despite their parseable decimal prefix. -/
theorem companiesGet_gate_accepts_iff_parseInt :
    jsParseInt "12abc" = some 12 ∧
    isNumericString "12abc" = false ∧
    companiesGet { minEmployees := some "12abc", maxEmployees := none, nameLike := none } =
      ([DbCall.companyFindAll { nameLike := none, minEmployees := some 12, maxEmployees := none }],
       RouteOutcome.success 200 []) ∧
    (∀ s : String,
      (companiesGet { minEmployees := some s, maxEmployees := none, nameLike := none } =
          ([], RouteOutcome.failure (BadRequestError (Msg.str "minEmployees must be a number"))) ↔
        jsParseIntNoRadix s = none)) := by
  refine ⟨by decide, by decide, by rfl, ?_⟩
  intro s
  constructor
  · intro hfail
    cases hp : jsParseIntNoRadix s with
    | none => rfl
    | some n =>
        have hq : ∃ m, jsParseInt s = some m := by
          cases hq2 : jsParseInt s with
          | none => simp [jsParseIntNoRadix, hq2] at hp
          | some m => exact ⟨m, rfl⟩
        obtain ⟨m, hm⟩ := hq
        rw [companiesGet_min_parses hp hm] at hfail
        simp at hfail
  · intro hp
    simp [companiesGet, hp]

/-- C10 witness: at "xyz", on which the radix-free parseInt is NaN, the
biconditional yields the minEmployees BadRequest failure. -/
theorem companiesGet_gate_accepts_iff_parseInt_witness :
    companiesGet { minEmployees := some "xyz", maxEmployees := none, nameLike := none } =
      ([], RouteOutcome.failure (BadRequestError (Msg.str "minEmployees must be a number"))) :=
  (companiesGet_gate_accepts_iff_parseInt.2.2.2 "xyz").mpr (by decide)
